import Mathlib

/-!
Verification of the genetic-keyboard kinematic core against its
specification.  The Python sources (`linalg.py`, `armature.py`,
`hand_movement.py`) are shallowly embedded below: pure functions become
Lean functions, Python floats become exact rationals (configuration and
pose data) or reals (trigonometry), and fallible operations return
`Except PyErr`.  `math.inf` returned by `calculate_cost` is modelled by
`Option` with `none` standing for the infinite (infeasible) cost.
-/

namespace GeneticKeyboard

/-- Python exception classes that the embedded code can raise. -/
inductive PyErr where
  | typeError
  | assertionError
  | valueError
  | keyError
  | attributeError
  | zeroDivisionError
deriving DecidableEq, Repr

/-- Embeds `math.radians`: degrees to radians conversion. -/
noncomputable def radians (x : ℝ) : ℝ := x * Real.pi / 180

/-- Embeds `linalg.Vec2`: a 2d vector with real coordinates. -/
structure Vec2 where
  x : ℝ
  y : ℝ

/-- Embeds `Vec2.__add__`. -/
noncomputable def Vec2.add (v other : Vec2) : Vec2 :=
  ⟨v.x + other.x, v.y + other.y⟩

/-- Embeds `Vec2.__sub__`. -/
noncomputable def Vec2.sub (v other : Vec2) : Vec2 :=
  ⟨v.x - other.x, v.y - other.y⟩

/-- Embeds `Vec2.__mul__` (scalar multiplication). -/
noncomputable def Vec2.mul (v : Vec2) (other : ℝ) : Vec2 :=
  ⟨v.x * other, v.y * other⟩

/-- Embeds `Vec2.__truediv__`.  Python float division by zero raises
`ZeroDivisionError`, so the operation is fallible. -/
noncomputable def Vec2.truediv (v : Vec2) (other : ℝ) : Except PyErr Vec2 :=
  if other = 0 then .error .zeroDivisionError
  else .ok ⟨v.x / other, v.y / other⟩

/-- Embeds `Vec2.rotate`: rotate by `angle` radians. -/
noncomputable def Vec2.rotate (v : Vec2) (angle : ℝ) : Vec2 :=
  ⟨v.x * Real.cos angle - v.y * Real.sin angle,
   v.x * Real.sin angle + v.y * Real.cos angle⟩

/-- Embeds `Vec2.dot`. -/
noncomputable def Vec2.dot (v other : Vec2) : ℝ :=
  v.x * other.x + v.y * other.y

/-- Embeds the `Vec2.length` property (vector magnitude). -/
noncomputable def Vec2.length (v : Vec2) : ℝ :=
  Real.sqrt (v.x ^ 2 + v.y ^ 2)

/-- Embeds the classmethod `Vec2.unit_vector` (angle in radians). -/
noncomputable def Vec2.unit_vector (angle : ℝ) : Vec2 :=
  ⟨Real.cos angle, Real.sin angle⟩

/-- Embeds the classmethod `Vec2.unit_vector_deg` (angle in degrees). -/
noncomputable def Vec2.unit_vector_deg (angle : ℝ) : Vec2 :=
  Vec2.unit_vector (radians angle)

/-- A 3x3 real matrix, embedding the numpy array held by
`Transform2dHomogeneous`. -/
structure Mat3 where
  m00 : ℝ
  m01 : ℝ
  m02 : ℝ
  m10 : ℝ
  m11 : ℝ
  m12 : ℝ
  m20 : ℝ
  m21 : ℝ
  m22 : ℝ

/-- The numpy matrix product `A @ B` on 3x3 arrays, as used by
`Transform2dHomogeneous.chain_translate` / `chain_rotate` (numpy does
define `@` on arrays, unlike the wrapper class itself). -/
noncomputable def m3mul (a b : Mat3) : Mat3 :=
  ⟨a.m00 * b.m00 + a.m01 * b.m10 + a.m02 * b.m20,
   a.m00 * b.m01 + a.m01 * b.m11 + a.m02 * b.m21,
   a.m00 * b.m02 + a.m01 * b.m12 + a.m02 * b.m22,
   a.m10 * b.m00 + a.m11 * b.m10 + a.m12 * b.m20,
   a.m10 * b.m01 + a.m11 * b.m11 + a.m12 * b.m21,
   a.m10 * b.m02 + a.m11 * b.m12 + a.m12 * b.m22,
   a.m20 * b.m00 + a.m21 * b.m10 + a.m22 * b.m20,
   a.m20 * b.m01 + a.m21 * b.m11 + a.m22 * b.m21,
   a.m20 * b.m02 + a.m21 * b.m12 + a.m22 * b.m22⟩

/-- Embeds `Transform2dHomogeneous`: a wrapper around a 3x3 matrix. -/
structure Transform2dHomogeneous where
  matrix : Mat3

/-- Embeds `Transform2dHomogeneous.__init__` (numpy identity). -/
def Transform2dHomogeneous.identity_transform : Transform2dHomogeneous :=
  ⟨⟨1, 0, 0, 0, 1, 0, 0, 0, 1⟩⟩

/-- Embeds the classmethod `new_translation_matrix`: identity with the
translation written into entries (0,2) and (1,2). -/
def Transform2dHomogeneous.new_translation_matrix (translation : Vec2) :
    Transform2dHomogeneous :=
  ⟨⟨1, 0, translation.x, 0, 1, translation.y, 0, 0, 1⟩⟩

/-- Embeds the classmethod `new_rotation_matrix` (angle in radians). -/
noncomputable def Transform2dHomogeneous.new_rotation_matrix (rotation_rad : ℝ) :
    Transform2dHomogeneous :=
  ⟨⟨Real.cos rotation_rad, -Real.sin rotation_rad, 0,
    Real.sin rotation_rad, Real.cos rotation_rad, 0,
    0, 0, 1⟩⟩

/-- Embeds the classmethod `new_rotation_matrix_deg`. -/
noncomputable def Transform2dHomogeneous.new_rotation_matrix_deg (rotation_deg : ℝ) :
    Transform2dHomogeneous :=
  Transform2dHomogeneous.new_rotation_matrix (radians rotation_deg)

/-- Embeds `chain_translate`: numpy product of the held matrices. -/
noncomputable def Transform2dHomogeneous.chain_translate
    (t : Transform2dHomogeneous) (translation : Vec2) : Transform2dHomogeneous :=
  ⟨m3mul t.matrix (Transform2dHomogeneous.new_translation_matrix translation).matrix⟩

/-- Embeds `chain_rotate`: numpy product of the held matrices. -/
noncomputable def Transform2dHomogeneous.chain_rotate
    (t : Transform2dHomogeneous) (rotation_rad : ℝ) : Transform2dHomogeneous :=
  ⟨m3mul t.matrix (Transform2dHomogeneous.new_rotation_matrix rotation_rad).matrix⟩

/-- Embeds the Python expression `a @ b` between two
`Transform2dHomogeneous` objects.  The class defines neither
`__matmul__` nor `__rmatmul__`, so the interpreter raises `TypeError`
(unsupported operand type for `@`) for every pair of operands. -/
def t2d_matmul (_a _b : Transform2dHomogeneous) : Except PyErr Transform2dHomogeneous :=
  .error .typeError

/-- Embeds the attribute access `t.multiply_point(p)`.  The class defines
no attribute `multiply_point`, so the lookup raises `AttributeError`
before any point can be transformed. -/
def t2d_multiply_point (_t : Transform2dHomogeneous) (_p : Vec2) : Except PyErr Vec2 :=
  .error .attributeError

/-- Embeds `armature.Bone`: name, positional offset relative to the
parent, length, rotation in radians, and an optional parent bone. -/
inductive Bone where
  | mk (name : String) (pos_offset : Vec2) (length : ℝ) (rotation_rad : ℝ)
       (parent : Option Bone)

/-- The `_name` field of a bone (exposed by the `name` property). -/
def Bone.name : Bone → String
  | .mk n _ _ _ _ => n

/-- The `_pos_offset` field of a bone. -/
def Bone.pos_offset : Bone → Vec2
  | .mk _ o _ _ _ => o

/-- The `_length` field of a bone. -/
def Bone.length : Bone → ℝ
  | .mk _ _ l _ _ => l

/-- The `_rotation_rad` field of a bone. -/
def Bone.rotation_rad : Bone → ℝ
  | .mk _ _ _ r _ => r

/-- The public `parent` attribute of a bone. -/
def Bone.parent : Bone → Option Bone
  | .mk _ _ _ _ p => p

/-- Embeds `Bone.__init__`.  The constructor stores every field except
the `parent` argument: the source assigns `self.parent = None`
unconditionally, discarding whatever parent was passed in. -/
def bone_init (name : String) (pos_offset : Vec2) (length rotation_rad : ℝ)
    (_parent : Option Bone) : Bone :=
  .mk name pos_offset length rotation_rad none

/-- Embeds `Bone.get_transform_local`: the expression
`T2D.new_translation_matrix(offset) @ T2D.new_rotation_matrix(rotation)`,
whose `@` raises `TypeError` (see `t2d_matmul`). -/
noncomputable def Bone.get_transform_local (b : Bone) :
    Except PyErr Transform2dHomogeneous :=
  t2d_matmul (Transform2dHomogeneous.new_translation_matrix b.pos_offset)
    (Transform2dHomogeneous.new_rotation_matrix b.rotation_rad)

/-- Embeds `Bone.get_transform_world`: local transform at the root,
otherwise `parent.get_transform_world() @ self.get_transform_local()`
(the parent's world transform is computed first, so its exception
propagates; the final `@` would raise `TypeError` anyway). -/
noncomputable def Bone.get_transform_world : Bone → Except PyErr Transform2dHomogeneous
  | .mk n o l r none => Bone.get_transform_local (.mk n o l r none)
  | .mk n o l r (some p) =>
    match p.get_transform_world with
    | .error e => .error e
    | .ok wp =>
      match Bone.get_transform_local (.mk n o l r (some p)) with
      | .error e => .error e
      | .ok lo => t2d_matmul wp lo

/-- Embeds `Bone.get_worldspace_positions`: applies the world transform
to the local points (0,0) and (length,0) via `multiply_point`. -/
noncomputable def Bone.get_worldspace_positions (b : Bone) :
    Except PyErr (Vec2 × Vec2) :=
  match b.get_transform_world with
  | .error e => .error e
  | .ok t =>
    match t2d_multiply_point t ⟨0, 0⟩ with
    | .error e => .error e
    | .ok s =>
      match t2d_multiply_point t ⟨b.length, 0⟩ with
      | .error e => .error e
      | .ok e2 => .ok (s, e2)

/-- Modelled from the spec (4.2): the local transform
`translate(offset) composed with rotate(rotation)` computed with the
matrix product that `chain_translate` / `chain_rotate` perform through
numpy.  The source's class-level `@` is missing (it raises `TypeError`),
so the intended composition is reconstructed here from the spec to state
refinement claims about the transform chain. -/
noncomputable def Bone.local_transform_spec (b : Bone) : Mat3 :=
  m3mul (Transform2dHomogeneous.new_translation_matrix b.pos_offset).matrix
    (Transform2dHomogeneous.new_rotation_matrix b.rotation_rad).matrix

/-- Modelled from the spec (4.2): the world transform obtained by
composing the parent chain, using the same intended matrix product as
`Bone.local_transform_spec`. -/
noncomputable def Bone.world_transform_spec : Bone → Mat3
  | .mk n o l r none => Bone.local_transform_spec (.mk n o l r none)
  | .mk n o l r (some p) =>
    m3mul p.world_transform_spec (Bone.local_transform_spec (.mk n o l r (some p)))

/-- Embeds `armature.Armature`: the `_bones` dict as an insertion-ordered
association list from bone name to bone. -/
structure Armature where
  _bones : List (String × Bone)

/-- The keys of the `_bones` dict. -/
def Armature.keys (a : Armature) : List String :=
  a._bones.map Prod.fst

/-- Embeds `Armature.add_bone`: raises `ValueError` on a duplicate name,
raises `KeyError` when the bone's parent is set but its name is not yet
in the armature, and otherwise inserts the bone. -/
def Armature.add_bone (a : Armature) (b : Bone) : Except PyErr Armature :=
  if b.name ∈ a.keys then .error .valueError
  else
    match b.parent with
    | some p =>
      if p.name ∈ a.keys then .ok ⟨a._bones ++ [(b.name, b)]⟩
      else .error .keyError
    | none => .ok ⟨a._bones ++ [(b.name, b)]⟩

/-- Embeds `Armature.__getattribute__` for attribute names that do not
start with an underscore: every such access is answered by
`self._bones[name]`, raising `KeyError` when no bone of that name exists.
Public methods are therefore shadowed by the bone lookup. -/
def Armature.getattr_public (a : Armature) (attr : String) : Except PyErr Bone :=
  match a._bones.find? (fun kv => kv.1 == attr) with
  | some kv => .ok kv.2
  | none => .error .keyError

/-- Embeds the call `armature.get_worldspace_positions()`: the attribute
lookup goes through `__getattribute__`, which returns a bone (never the
method); calling the returned `Bone` object raises `TypeError`, and when
no bone of that name exists the lookup itself raises `KeyError`. -/
def Armature.worldspace_query (a : Armature) : Except PyErr Unit :=
  match a.getattr_public ("get_worldspace_positions") with
  | .error e => .error e
  | .ok _ => .error .typeError

/-- Embeds `hand_movement.HandShape`: per-hand anatomical configuration.
Python float values are modelled as exact rationals. -/
structure HandShape where
  wrist_inwards_bound : ℚ
  wrist_inwards_difficulty : ℚ
  wrist_outwards_bound : ℚ
  wrist_outwards_difficulty : ℚ
  wrist_rest_position : ℚ
  thumb_root_position : ℚ × ℚ
  index_root_position : ℚ × ℚ
  middle_root_position : ℚ × ℚ
  ring_root_position : ℚ × ℚ
  pinky_root_position : ℚ × ℚ
  thumb_length : ℚ
  index_length : ℚ
  middle_length : ℚ
  ring_length : ℚ
  pinky_length : ℚ
  index_max_splay : ℚ
  index_splay_cost : ℚ
  middle_max_splay : ℚ
  middle_splay_cost : ℚ
  ring_max_splay : ℚ
  ring_splay_cost : ℚ
  pinky_max_splay : ℚ
  pinky_splay_cost : ℚ
  thumb_down_splay_bound : ℚ
  thumb_up_splay_bound : ℚ
  thumb_rest_position : ℚ
  thumb_splay_cost : ℚ
  index_max_contraction : ℚ
  index_default_contraction : ℚ
  index_contraction_cost : ℚ
  middle_max_contraction : ℚ
  middle_default_contraction : ℚ
  middle_contraction_cost : ℚ
  ring_max_contraction : ℚ
  ring_default_contraction : ℚ
  ring_contraction_cost : ℚ
  pinky_max_contraction : ℚ
  pinky_default_contraction : ℚ
  pinky_contraction_cost : ℚ
  thumb_max_contraction : ℚ
  thumb_default_contraction : ℚ
  thumb_contraction_cost : ℚ
deriving DecidableEq

/-- The documented default class-attribute values of `HandShape`. -/
def default_hand_shape : HandShape where
  wrist_inwards_bound := 15
  wrist_inwards_difficulty := 1
  wrist_outwards_bound := 30
  wrist_outwards_difficulty := 0.5
  wrist_rest_position := 10
  thumb_root_position := (40, 20)
  index_root_position := (19, 80)
  middle_root_position := (3, 82)
  ring_root_position := (-16, 80)
  pinky_root_position := (-30, 78)
  thumb_length := 45
  index_length := 70
  middle_length := 73
  ring_length := 71
  pinky_length := 65
  index_max_splay := 30
  index_splay_cost := 0.3
  middle_max_splay := 20
  middle_splay_cost := 0.35
  ring_max_splay := 23
  ring_splay_cost := 0.4
  pinky_max_splay := 43
  pinky_splay_cost := 0.2
  thumb_down_splay_bound := 90
  thumb_up_splay_bound := 20
  thumb_rest_position := 45
  thumb_splay_cost := 0.25
  index_max_contraction := 0.5
  index_default_contraction := 0.8
  index_contraction_cost := 0.3
  middle_max_contraction := 0.55
  middle_default_contraction := 0.8
  middle_contraction_cost := 0.38
  ring_max_contraction := 0.6
  ring_default_contraction := 0.8
  ring_contraction_cost := 0.43
  pinky_max_contraction := 0.45
  pinky_default_contraction := 0.8
  pinky_contraction_cost := 0.27
  thumb_max_contraction := 0.5
  thumb_default_contraction := 0.8
  thumb_contraction_cost := 0.2

/-- Embeds `HandShape._assert_integrity`: for each digit in the order
(index, middle, ring, pinky, thumb), the default contraction must not
exceed the maximum contraction. -/
def hand_shape_integrity (s : HandShape) : Prop :=
  s.index_default_contraction ≤ s.index_max_contraction ∧
  s.middle_default_contraction ≤ s.middle_max_contraction ∧
  s.ring_default_contraction ≤ s.ring_max_contraction ∧
  s.pinky_default_contraction ≤ s.pinky_max_contraction ∧
  s.thumb_default_contraction ≤ s.thumb_max_contraction

instance (s : HandShape) : Decidable (hand_shape_integrity s) := by
  unfold hand_shape_integrity
  infer_instance

/-- Embeds `HandShape.__init__(self, *args, **kwargs)`.  The dataclass
decorator keeps this user-defined constructor.  It first delegates to
`object.__init__(*args, **kwargs)`, which raises `TypeError` whenever any
positional or keyword argument is supplied (the class overrides
`__init__` but not `__new__`); with no arguments, the instance keeps the
default class attributes and `_assert_integrity` raises `AssertionError`
when some digit violates `default_contraction <= max_contraction`.
Arguments are abstracted by their counts. -/
def hand_shape_init (nargs nkwargs : Nat) : Except PyErr HandShape :=
  if nargs = 0 ∧ nkwargs = 0 then
    if hand_shape_integrity default_hand_shape then .ok default_hand_shape
    else .error .assertionError
  else .error .typeError

/-- Embeds `hand_movement.HandPosition`: a candidate posture. -/
structure HandPosition where
  wrist_rotation : ℚ
  thumb_splay : ℚ
  thumb_extension : ℚ
  index_splay : ℚ
  index_extension : ℚ
  middle_splay : ℚ
  middle_extension : ℚ
  ring_splay : ℚ
  ring_extension : ℚ
  pinky_splay : ℚ
  pinky_extension : ℚ
deriving DecidableEq

/-- The default field values of the `HandPosition` dataclass: wrist
rotation 0, all splays 0, all extensions 1. -/
def HandPosition.default_position : HandPosition :=
  ⟨0, 0, 1, 0, 1, 0, 1, 0, 1, 0, 1⟩

/-- The feasibility gate of `HandPosition.calculate_cost`: the 22
comparisons (11 two-sided scalar checks) whose disjunction makes the
function return `math.inf`, in source order. -/
def GateFails (s : HandShape) (p : HandPosition) : Prop :=
  p.wrist_rotation < -s.wrist_inwards_bound ∨
  p.wrist_rotation > s.wrist_outwards_bound ∨
  p.thumb_splay < -s.thumb_down_splay_bound ∨
  p.thumb_splay > s.thumb_up_splay_bound ∨
  p.index_splay < -s.index_max_splay ∨
  p.index_splay > 0 ∨
  p.middle_splay < -s.middle_max_splay ∨
  p.middle_splay > 0 ∨
  p.ring_splay < -s.ring_max_splay ∨
  p.ring_splay > 0 ∨
  p.pinky_splay < -s.pinky_max_splay ∨
  p.pinky_splay > 0 ∨
  p.thumb_extension < s.thumb_max_contraction ∨
  p.thumb_extension > 1 ∨
  p.index_extension < s.index_max_contraction ∨
  p.index_extension > 1 ∨
  p.middle_extension < s.middle_max_contraction ∨
  p.middle_extension > 1 ∨
  p.ring_extension < s.ring_max_contraction ∨
  p.ring_extension > 1 ∨
  p.pinky_extension < s.pinky_max_contraction ∨
  p.pinky_extension > 1

instance (s : HandShape) (p : HandPosition) : Decidable (GateFails s p) := by
  unfold GateFails
  infer_instance

/-- Embeds `HandPosition.calculate_cost`.  The returned `math.inf` for an
infeasible posture is modelled as `none`; a feasible posture yields
`some` of the weighted sum of absolute deviations, accumulated in source
order. -/
def HandPosition.calculate_cost (p : HandPosition) (hand_shape : HandShape) :
    Option ℚ :=
  if GateFails hand_shape p then none
  else
    some
      ((if p.wrist_rotation < hand_shape.wrist_rest_position then
          |p.wrist_rotation - hand_shape.wrist_rest_position| *
            hand_shape.wrist_inwards_difficulty
        else
          |p.wrist_rotation - hand_shape.wrist_rest_position| *
            hand_shape.wrist_outwards_difficulty)
        + |p.thumb_splay - hand_shape.thumb_rest_position| * hand_shape.thumb_splay_cost
        + |p.thumb_extension - hand_shape.thumb_default_contraction| *
            hand_shape.thumb_contraction_cost
        + |p.index_splay - hand_shape.index_max_splay| * hand_shape.index_splay_cost
        + |p.index_extension - hand_shape.index_default_contraction| *
            hand_shape.index_contraction_cost
        + |p.middle_splay - hand_shape.middle_max_splay| * hand_shape.middle_splay_cost
        + |p.middle_extension - hand_shape.middle_default_contraction| *
            hand_shape.middle_contraction_cost
        + |p.ring_splay - hand_shape.ring_max_splay| * hand_shape.ring_splay_cost
        + |p.ring_extension - hand_shape.ring_default_contraction| *
            hand_shape.ring_contraction_cost
        + |p.pinky_splay - hand_shape.pinky_max_splay| * hand_shape.pinky_splay_cost
        + |p.pinky_extension - hand_shape.pinky_default_contraction| *
            hand_shape.pinky_contraction_cost)

/-- The pose in which every field equals its shape's rest/default value
as described by the testable property in the spec: wrist at the rest
rotation, thumb at the rest splay and default contraction, each other
finger at its maximum splay and default contraction. -/
def rest_pose (s : HandShape) : HandPosition where
  wrist_rotation := s.wrist_rest_position
  thumb_splay := s.thumb_rest_position
  thumb_extension := s.thumb_default_contraction
  index_splay := s.index_max_splay
  index_extension := s.index_default_contraction
  middle_splay := s.middle_max_splay
  middle_extension := s.middle_default_contraction
  ring_splay := s.ring_max_splay
  ring_extension := s.ring_default_contraction
  pinky_splay := s.pinky_max_splay
  pinky_extension := s.pinky_default_contraction

/-- The ten feasibility checks of the gate that do not involve the wrist
rotation, in source order: each holds when the corresponding comparison
of `GateFails` does not fire. -/
def TenChecksOk (s : HandShape) (p : HandPosition) : Prop :=
  ¬(p.thumb_splay < -s.thumb_down_splay_bound) ∧
  ¬(p.thumb_splay > s.thumb_up_splay_bound) ∧
  ¬(p.index_splay < -s.index_max_splay) ∧
  ¬(p.index_splay > 0) ∧
  ¬(p.middle_splay < -s.middle_max_splay) ∧
  ¬(p.middle_splay > 0) ∧
  ¬(p.ring_splay < -s.ring_max_splay) ∧
  ¬(p.ring_splay > 0) ∧
  ¬(p.pinky_splay < -s.pinky_max_splay) ∧
  ¬(p.pinky_splay > 0) ∧
  ¬(p.thumb_extension < s.thumb_max_contraction) ∧
  ¬(p.thumb_extension > 1) ∧
  ¬(p.index_extension < s.index_max_contraction) ∧
  ¬(p.index_extension > 1) ∧
  ¬(p.middle_extension < s.middle_max_contraction) ∧
  ¬(p.middle_extension > 1) ∧
  ¬(p.ring_extension < s.ring_max_contraction) ∧
  ¬(p.ring_extension > 1) ∧
  ¬(p.pinky_extension < s.pinky_max_contraction) ∧
  ¬(p.pinky_extension > 1)

instance (s : HandShape) (p : HandPosition) : Decidable (TenChecksOk s p) := by
  unfold TenChecksOk
  infer_instance

/-- The twelve deviation weights used by `calculate_cost`, all
non-negative. -/
def NonnegWeights (s : HandShape) : Prop :=
  0 ≤ s.wrist_inwards_difficulty ∧ 0 ≤ s.wrist_outwards_difficulty ∧
  0 ≤ s.thumb_splay_cost ∧ 0 ≤ s.thumb_contraction_cost ∧
  0 ≤ s.index_splay_cost ∧ 0 ≤ s.index_contraction_cost ∧
  0 ≤ s.middle_splay_cost ∧ 0 ≤ s.middle_contraction_cost ∧
  0 ≤ s.ring_splay_cost ∧ 0 ≤ s.ring_contraction_cost ∧
  0 ≤ s.pinky_splay_cost ∧ 0 ≤ s.pinky_contraction_cost

instance (s : HandShape) : Decidable (NonnegWeights s) := by
  unfold NonnegWeights
  infer_instance

/-- Embeds `hand_movement.Hands`: a shape for each hand. -/
structure Hands where
  left_shape : HandShape
  right_shape : HandShape

/-- Embeds `Hands.__init__`: both hands share the supplied shape. -/
def Hands.of_shape (shape : HandShape) : Hands := ⟨shape, shape⟩

/-- The per-digit pre-rotation fingertip of `Hands.get_fingertip_coords`:
root position plus the offset
`(sin(radians(splay)) * length * extension, cos(radians(splay)) * length * extension)`. -/
noncomputable def tip_pre_rotation (root : ℚ × ℚ) (len splay ext_frac : ℚ) : ℝ × ℝ :=
  ((root.1 : ℝ) + Real.sin (radians (splay : ℝ)) * (len : ℝ) * (ext_frac : ℝ),
   (root.2 : ℝ) + Real.cos (radians (splay : ℝ)) * (len : ℝ) * (ext_frac : ℝ))

/-- The loop body of `Hands.get_fingertip_coords` that applies the wrist
rotation about (0,0) and the left-hand mirroring.  The source reassigns
`x` before computing `y`, so `y` is computed from the already-rotated
`x` value; this reassignment is reproduced by the shadowing `let`s. -/
noncomputable def rotate_and_mirror (right_hand : Bool) (wrist_deg : ℚ)
    (pos : ℝ × ℝ) : ℝ × ℝ :=
  let x := pos.1
  let y := pos.2
  let x := x * Real.cos (radians (wrist_deg : ℝ)) - y * Real.sin (radians (wrist_deg : ℝ))
  let y := x * Real.sin (radians (wrist_deg : ℝ)) + y * Real.cos (radians (wrist_deg : ℝ))
  let x := if right_hand then x else -x
  (x, y)

/-- The five fingertip coordinates returned by
`Hands.get_fingertip_coords`, in order (thumb, index, middle, ring,
pinky). -/
structure Fingertips where
  thumb : ℝ × ℝ
  index : ℝ × ℝ
  middle : ℝ × ℝ
  ring : ℝ × ℝ
  pinky : ℝ × ℝ

/-- Embeds `Hands.get_fingertip_coords`: picks the shape for the
requested hand, computes the pre-rotation tip of each digit, then
applies the wrist rotation and the left-hand mirroring to each. -/
noncomputable def Hands.get_fingertip_coords (h : Hands) (right_hand : Bool)
    (pose : HandPosition) : Fingertips :=
  let hand_shape := if right_hand then h.right_shape else h.left_shape
  let thumbpos := tip_pre_rotation hand_shape.thumb_root_position
    hand_shape.thumb_length pose.thumb_splay pose.thumb_extension
  let indexpos := tip_pre_rotation hand_shape.index_root_position
    hand_shape.index_length pose.index_splay pose.index_extension
  let middlepos := tip_pre_rotation hand_shape.middle_root_position
    hand_shape.middle_length pose.middle_splay pose.middle_extension
  let ringpos := tip_pre_rotation hand_shape.ring_root_position
    hand_shape.ring_length pose.ring_splay pose.ring_extension
  let pinkypos := tip_pre_rotation hand_shape.pinky_root_position
    hand_shape.pinky_length pose.pinky_splay pose.pinky_extension
  ⟨rotate_and_mirror right_hand pose.wrist_rotation thumbpos,
   rotate_and_mirror right_hand pose.wrist_rotation indexpos,
   rotate_and_mirror right_hand pose.wrist_rotation middlepos,
   rotate_and_mirror right_hand pose.wrist_rotation ringpos,
   rotate_and_mirror right_hand pose.wrist_rotation pinkypos⟩

/-- Modelled from the spec (4.1, 4.4 step 3): the standard 2D rotation of
a tip position about the wrist center, with both output coordinates
computed from the original pre-rotation coordinates. -/
noncomputable def spec_wrist_rotate (wrist_deg : ℚ) (pos : ℝ × ℝ) : ℝ × ℝ :=
  (pos.1 * Real.cos (radians (wrist_deg : ℝ)) - pos.2 * Real.sin (radians (wrist_deg : ℝ)),
   pos.1 * Real.sin (radians (wrist_deg : ℝ)) + pos.2 * Real.cos (radians (wrist_deg : ℝ)))

/-- C10: dividing a `Vec2` by zero fails with the distinguished
arithmetic error `ZeroDivisionError` (and succeeds, returning the
componentwise quotient, for every non-zero divisor), while addition,
subtraction, scalar multiplication, rotation, dot product and
unit-vector construction are total: each returns a value, given by its
defining formula, for all real inputs. -/
theorem c10_division_by_zero_fails :
    (∀ v : Vec2, v.truediv 0 = .error .zeroDivisionError)
    ∧ (∀ (v : Vec2) (c : ℝ), c ≠ 0 → v.truediv c = .ok ⟨v.x / c, v.y / c⟩)
    ∧ (∀ v w : Vec2, v.add w = ⟨v.x + w.x, v.y + w.y⟩)
    ∧ (∀ v w : Vec2, v.sub w = ⟨v.x - w.x, v.y - w.y⟩)
    ∧ (∀ (v : Vec2) (c : ℝ), v.mul c = ⟨v.x * c, v.y * c⟩)
    ∧ (∀ (v : Vec2) (a : ℝ),
        v.rotate a = ⟨v.x * Real.cos a - v.y * Real.sin a,
                      v.x * Real.sin a + v.y * Real.cos a⟩)
    ∧ (∀ v w : Vec2, v.dot w = v.x * w.x + v.y * w.y)
    ∧ (∀ a : ℝ, Vec2.unit_vector a = ⟨Real.cos a, Real.sin a⟩)
    ∧ (∀ a : ℝ, Vec2.unit_vector_deg a = Vec2.unit_vector (radians a)) := by
  refine ⟨fun v => ?_, fun v c hc => ?_, fun v w => rfl, fun v w => rfl,
    fun v c => rfl, fun v a => rfl, fun v w => rfl, fun a => rfl, fun a => rfl⟩
  · simp [Vec2.truediv]
  · simp [Vec2.truediv, hc]

/-- Witness for C10: the non-zero-divisor case evaluated at a concrete
vector and divisor. -/
theorem c10_division_by_zero_fails_witness :
    Vec2.truediv ⟨6, 8⟩ 2 = .ok ⟨6 / 2, 8 / 2⟩ :=
  c10_division_by_zero_fails.2.1 ⟨6, 8⟩ 2 (by norm_num)

/-- C2: constructing a `HandShape` always raises.  With no arguments the
integrity assertion fails on the default field values (every digit has
default contraction 0.8 exceeding its maximum contraction, which is at
most 0.6), raising `AssertionError`; with any positional or keyword
argument the delegation to `object.__init__` raises `TypeError`.  Hence
no `HandShape` is ever successfully constructed. -/
theorem c2_hand_shape_never_constructed (nargs nkwargs : Nat) :
    hand_shape_init nargs nkwargs
      = .error (if nargs = 0 ∧ nkwargs = 0 then PyErr.assertionError
                else PyErr.typeError) := by
  by_cases h : nargs = 0 ∧ nkwargs = 0
  · obtain ⟨h1, h2⟩ := h
    subst h1
    subst h2
    have hint : ¬ hand_shape_integrity default_hand_shape := by
      norm_num [hand_shape_integrity, default_hand_shape]
    simp [hand_shape_init, hint]
  · simp [hand_shape_init, h]

/-- A concrete root bone named `a`. -/
def bone_a : Bone := .mk ("a") ⟨0, 0⟩ 1 0 none

/-- A second concrete bone that reuses the name `a`. -/
def bone_a2 : Bone := .mk ("a") ⟨1, 1⟩ 2 0 none

/-- A concrete root bone named `p`. -/
def bone_p : Bone := .mk ("p") ⟨0, 0⟩ 1 0 none

/-- A concrete bone named `c` whose `parent` attribute holds the bone
named `p`. -/
def bone_c_with_parent_p : Bone := .mk ("c") ⟨0, 0⟩ 1 0 (some bone_p)

/-- An armature already containing the bone named `a`. -/
def armature_a : Armature := ⟨[(("a"), bone_a)]⟩

/-- C3: `Armature.add_bone` fails with the duplicate-name error
(`ValueError`) when a bone with the same name is already a member, fails
with the missing-parent error (`KeyError`) when the bone's parent is set
but not yet a member, and otherwise appends the bone to the mapping; in
particular adding a second bone named `a` fails with the duplicate-name
error, and adding a bone whose parent is named `p` to an armature with
no bone named `p` fails with the missing-parent error. -/
theorem c3_add_bone_checks :
    (∀ (a : Armature) (b : Bone), b.name ∈ a.keys → a.add_bone b = .error .valueError)
    ∧ (∀ (a : Armature) (b p : Bone), b.name ∉ a.keys → b.parent = some p →
        p.name ∉ a.keys → a.add_bone b = .error .keyError)
    ∧ (∀ (a : Armature) (b : Bone), b.name ∉ a.keys →
        (b.parent = none ∨ ∃ p, b.parent = some p ∧ p.name ∈ a.keys) →
        a.add_bone b = .ok ⟨a._bones ++ [(b.name, b)]⟩)
    ∧ armature_a.add_bone bone_a2 = .error .valueError
    ∧ Armature.add_bone ⟨[]⟩ bone_c_with_parent_p = .error .keyError := by
  refine ⟨fun a b hmem => ?_, fun a b p hb hp hpn => ?_, fun a b hb hpar => ?_, ?_, ?_⟩
  · simp [Armature.add_bone, hmem]
  · simp [Armature.add_bone, hb, hp, hpn]
  · rcases hpar with hnone | ⟨p, hp, hpn⟩
    · simp [Armature.add_bone, hb, hnone]
    · simp [Armature.add_bone, hb, hp, hpn]
  · rfl
  · rfl

/-- Witness for C3: successfully inserting a root bone named `a` into an
empty armature. -/
theorem c3_add_bone_checks_witness :
    Armature.add_bone ⟨[]⟩ bone_a = .ok ⟨[((("a") : String), bone_a)]⟩ :=
  c3_add_bone_checks.2.2.1 ⟨[]⟩ bone_a (by simp [Armature.keys]) (Or.inl rfl)

/-- Every bone's world transform raises `TypeError`: the base case is the
missing `@` in `get_transform_local`, and the recursive case propagates
the parent's exception. -/
theorem bone_world_transform_typeError :
    ∀ b : Bone, b.get_transform_world = .error .typeError
  | .mk _ _ _ _ none => rfl
  | .mk n o l r (some p) => by
    have ih := bone_world_transform_typeError p
    simp [Bone.get_transform_world, ih]

/-- C9: no transform query on a bone ever returns a value:
`get_transform_local` raises `TypeError` because
`Transform2dHomogeneous` defines no matrix-multiplication operator,
`get_transform_world` therefore raises `TypeError` as well, and
`get_worldspace_positions` (which would additionally need the undefined
`multiply_point`) raises `TypeError` too; the armature world-space query
also fails for every armature, because `__getattribute__` answers the
method lookup with a bone lookup (`KeyError`, or a non-callable bone). -/
theorem c9_transform_queries_fail :
    (∀ b : Bone, b.get_transform_local = .error .typeError)
    ∧ (∀ b : Bone, b.get_transform_world = .error .typeError)
    ∧ (∀ b : Bone, b.get_worldspace_positions = .error .typeError)
    ∧ (∀ a : Armature, ∃ e, a.worldspace_query = .error e) := by
  refine ⟨fun b => rfl, bone_world_transform_typeError, fun b => ?_, fun a => ?_⟩
  · simp [Bone.get_worldspace_positions, bone_world_transform_typeError b]
  · unfold Armature.worldspace_query Armature.getattr_public
    rcases hf : a._bones.find? (fun kv => kv.1 == ("get_worldspace_positions")) with _ | kv
    · exact ⟨.keyError, by simp [hf]⟩
    · exact ⟨.typeError, by simp [hf]⟩

/-- A concrete shape whose rest pose is feasible: the default values
except that every finger's maximum splay is 0 and the thumb rest splay
is 0. -/
def feasible_rest_shape : HandShape := { default_hand_shape with
  index_max_splay := 0
  middle_max_splay := 0
  ring_max_splay := 0
  pinky_max_splay := 0
  thumb_rest_position := 0 }

/-- A concrete shape with a negative wrist inwards bound, default
otherwise. -/
def negative_inwards_bound_shape : HandShape := { default_hand_shape with
  wrist_inwards_bound := -40 }

/-- A concrete shape with a negative wrist inwards-difficulty weight and
all other deviation weights other than the wrist ones set to 0, default
otherwise. -/
def negative_weight_shape : HandShape := { default_hand_shape with
  wrist_inwards_difficulty := -1
  thumb_splay_cost := 0
  thumb_contraction_cost := 0
  index_splay_cost := 0
  index_contraction_cost := 0
  middle_splay_cost := 0
  middle_contraction_cost := 0
  ring_splay_cost := 0
  ring_contraction_cost := 0
  pinky_splay_cost := 0
  pinky_contraction_cost := 0 }

/-- Counterexample to C5 as stated: for the default hand shape, the rest
pose is rejected by the feasibility gate (its thumb rest splay of 45
degrees exceeds the 20-degree up bound, and each finger's maximum splay
is positive while the gate only admits splays in `[-max_splay, 0]`), so
`calculate_cost` returns the infinite cost, not 0. -/
theorem c5_default_rest_pose_infeasible :
    (rest_pose default_hand_shape).calculate_cost default_hand_shape = none
    ∧ (rest_pose default_hand_shape).calculate_cost default_hand_shape ≠ some 0 := by
  have hg : GateFails default_hand_shape (rest_pose default_hand_shape) := by
    unfold GateFails rest_pose default_hand_shape
    norm_num
  constructor
  · simp [HandPosition.calculate_cost, hg]
  · simp [HandPosition.calculate_cost, hg]

/-- C5 (amended): for every hand shape whose rest/default pose passes the
feasibility gate, `calculate_cost` of that pose is exactly 0: every one
of the eleven weighted deviation terms vanishes because each pose field
equals the reference value it is compared against. -/
theorem c5_rest_pose_zero_cost (s : HandShape)
    (h : ¬ GateFails s (rest_pose s)) :
    (rest_pose s).calculate_cost s = some 0 := by
  unfold HandPosition.calculate_cost
  rw [if_neg h]
  simp [rest_pose]

/-- Witness for C5: a concrete shape (default values except that every
finger's maximum splay is 0 and the thumb rest splay is 0) whose rest
pose is feasible and costs exactly 0. -/
theorem c5_rest_pose_zero_cost_witness :
    (rest_pose feasible_rest_shape).calculate_cost feasible_rest_shape = some 0 :=
  c5_rest_pose_zero_cost feasible_rest_shape
    (by unfold GateFails rest_pose feasible_rest_shape default_hand_shape; norm_num)

/-- Counterexample to C6 as stated: for a shape with a negative inwards
bound (which no invariant forbids), a pose whose other ten checked
fields are all within their bounds and whose wrist rotation equals
`-wrist_inwards_bound` exactly is still rejected: the wrist value of 40
degrees trips the outwards check, so the cost is infinite rather than
finite. -/
theorem c6_exact_bound_can_be_infeasible :
    TenChecksOk negative_inwards_bound_shape
      { HandPosition.default_position with wrist_rotation := 40 }
    ∧ ({ HandPosition.default_position with wrist_rotation := 40 } :
        HandPosition).wrist_rotation = -negative_inwards_bound_shape.wrist_inwards_bound
    ∧ ({ HandPosition.default_position with wrist_rotation := 40 } :
        HandPosition).calculate_cost negative_inwards_bound_shape = none := by
  refine ⟨?_, ?_, ?_⟩
  · unfold TenChecksOk HandPosition.default_position negative_inwards_bound_shape
      default_hand_shape
    norm_num
  · norm_num [HandPosition.default_position, negative_inwards_bound_shape,
      default_hand_shape]
  · have hg : GateFails negative_inwards_bound_shape
        { HandPosition.default_position with wrist_rotation := 40 } := by
      unfold GateFails HandPosition.default_position negative_inwards_bound_shape
        default_hand_shape
      norm_num
    simp [HandPosition.calculate_cost, hg]

/-- C6 (amended): `calculate_cost` returns the infinite cost exactly when
at least one of the 11 scalar feasibility checks fails; moreover, for a
pose whose other ten checked fields are within their bounds and a shape
whose wrist interval is non-empty (`-wrist_inwards_bound` at most
`wrist_outwards_bound`), the cost is infinite with the wrist 1 degree
below `-wrist_inwards_bound` and finite with the wrist exactly at
`-wrist_inwards_bound`. -/
theorem c6_gate_iff_and_wrist_bound (s : HandShape) (p : HandPosition) :
    ((p.calculate_cost s = none) ↔ GateFails s p)
    ∧ (TenChecksOk s p → -s.wrist_inwards_bound ≤ s.wrist_outwards_bound →
        ({ p with wrist_rotation := -s.wrist_inwards_bound - 1 } :
            HandPosition).calculate_cost s = none
        ∧ ({ p with wrist_rotation := -s.wrist_inwards_bound } :
            HandPosition).calculate_cost s ≠ none) := by
  constructor
  · by_cases hg : GateFails s p
    · simp [HandPosition.calculate_cost, hg]
    · simp [HandPosition.calculate_cost, hg]
  · intro hten hbound
    constructor
    · have hg : GateFails s ({ p with wrist_rotation := -s.wrist_inwards_bound - 1 } :
          HandPosition) := by
        left
        show -s.wrist_inwards_bound - 1 < -s.wrist_inwards_bound
        linarith
      simp [HandPosition.calculate_cost, hg]
    · obtain ⟨h3, h4, h5, h6, h7, h8, h9, h10, h11, h12, h13, h14, h15, h16, h17,
        h18, h19, h20, h21, h22⟩ := hten
      have hg : ¬ GateFails s ({ p with wrist_rotation := -s.wrist_inwards_bound } :
          HandPosition) := by
        unfold GateFails
        push_neg
        exact ⟨le_refl _, hbound, not_lt.mp h3, not_lt.mp h4, not_lt.mp h5,
          not_lt.mp h6, not_lt.mp h7, not_lt.mp h8, not_lt.mp h9, not_lt.mp h10,
          not_lt.mp h11, not_lt.mp h12, not_lt.mp h13, not_lt.mp h14,
          not_lt.mp h15, not_lt.mp h16, not_lt.mp h17, not_lt.mp h18,
          not_lt.mp h19, not_lt.mp h20, not_lt.mp h21, not_lt.mp h22⟩
      simp [HandPosition.calculate_cost, hg]

/-- Witness for C6: the default shape and default pose, whose ten
non-wrist fields are within bounds; the cost is infinite one degree
below the inwards bound and finite exactly at the bound. -/
theorem c6_gate_iff_and_wrist_bound_witness :
    ({ HandPosition.default_position with
        wrist_rotation := -default_hand_shape.wrist_inwards_bound - 1 } :
        HandPosition).calculate_cost default_hand_shape = none
    ∧ ({ HandPosition.default_position with
        wrist_rotation := -default_hand_shape.wrist_inwards_bound } :
        HandPosition).calculate_cost default_hand_shape ≠ none :=
  (c6_gate_iff_and_wrist_bound default_hand_shape HandPosition.default_position).2
    (by unfold TenChecksOk HandPosition.default_position default_hand_shape; norm_num)
    (by norm_num [default_hand_shape])

/-- Counterexample to C7 as stated: nothing constrains the deviation
weights to be non-negative, so with a shape whose inwards-difficulty
weight is -1 (all other weights 0) and a feasible pose one degree inside
the rest rotation, `calculate_cost` returns the negative value -1. -/
theorem c7_negative_cost_possible :
    ({ HandPosition.default_position with wrist_rotation := 9 } :
        HandPosition).calculate_cost negative_weight_shape = some (-1)
    ∧ ((-1 : ℚ) < 0) := by
  constructor
  · have hg : ¬ GateFails negative_weight_shape
        { HandPosition.default_position with wrist_rotation := 9 } := by
      unfold GateFails HandPosition.default_position negative_weight_shape
        default_hand_shape
      norm_num
    unfold HandPosition.calculate_cost
    rw [if_neg hg]
    norm_num [HandPosition.default_position, negative_weight_shape,
      default_hand_shape]
  · norm_num

/-- C7 (amended): for every hand shape whose twelve deviation weights are
non-negative and every pose, `calculate_cost` returns either the
infinite cost or a non-negative rational. -/
theorem c7_cost_nonneg_for_nonneg_weights (s : HandShape) (p : HandPosition)
    (h : NonnegWeights s) :
    p.calculate_cost s = none
    ∨ ∃ r, p.calculate_cost s = some r ∧ 0 ≤ r := by
  obtain ⟨h1, h2, h3, h4, h5, h6, h7, h8, h9, h10, h11, h12⟩ := h
  by_cases hg : GateFails s p
  · left
    simp [HandPosition.calculate_cost, hg]
  · right
    refine ⟨_, by rw [HandPosition.calculate_cost, if_neg hg], ?_⟩
    have t : ∀ a w : ℚ, 0 ≤ w → 0 ≤ |a| * w := fun a w hw =>
      mul_nonneg (abs_nonneg a) hw
    have hw : 0 ≤ (if p.wrist_rotation < s.wrist_rest_position then
        |p.wrist_rotation - s.wrist_rest_position| * s.wrist_inwards_difficulty
      else
        |p.wrist_rotation - s.wrist_rest_position| * s.wrist_outwards_difficulty) := by
      split
      · exact t _ _ h1
      · exact t _ _ h2
    exact add_nonneg (add_nonneg (add_nonneg (add_nonneg (add_nonneg (add_nonneg
      (add_nonneg (add_nonneg (add_nonneg (add_nonneg hw (t _ _ h3)) (t _ _ h4))
      (t _ _ h5)) (t _ _ h6)) (t _ _ h7)) (t _ _ h8)) (t _ _ h9)) (t _ _ h10))
      (t _ _ h11)) (t _ _ h12)

/-- Witness for C7: the default shape has non-negative weights, so its
cost for the default pose is infinite or non-negative. -/
theorem c7_cost_nonneg_for_nonneg_weights_witness :
    HandPosition.default_position.calculate_cost default_hand_shape = none
    ∨ ∃ r, HandPosition.default_position.calculate_cost default_hand_shape = some r
        ∧ 0 ≤ r :=
  c7_cost_nonneg_for_nonneg_weights default_hand_shape HandPosition.default_position
    (by unfold NonnegWeights default_hand_shape; norm_num)

/-- Zero degrees converts to zero radians. -/
theorem radians_zero : radians 0 = 0 := by
  simp [radians]

/-- Ninety degrees converts to half pi radians. -/
theorem radians_rat_ninety : radians ((90 : ℚ) : ℝ) = Real.pi / 2 := by
  rw [radians]
  push_cast
  ring

/-- At splay 0 and extension 1, a digit's pre-rotation tip is its root
position plus (0, length). -/
theorem tip_pre_rotation_rest (root : ℚ × ℚ) (len : ℚ) :
    tip_pre_rotation root len 0 1 = ((root.1 : ℝ), (root.2 : ℝ) + (len : ℝ)) := by
  simp [tip_pre_rotation, radians_zero]

/-- At wrist rotation 0, the rotation-and-mirror loop body is the
identity on the right hand and the x-negation on the left hand. -/
theorem rotate_and_mirror_zero (right_hand : Bool) (pos : ℝ × ℝ) :
    rotate_and_mirror right_hand 0 pos
      = (if right_hand then pos.1 else -pos.1, pos.2) := by
  simp [rotate_and_mirror, radians_zero]

/-- C8: for every hand shape and the pose with all splays 0, all
extensions 1 and wrist rotation 0 (the `HandPosition` defaults),
`get_fingertip_coords` returns, for every digit in the order (thumb,
index, middle, ring, pinky), exactly the digit's root position plus
(0, length): unmirrored for the right hand and with the x-coordinate
negated for the left hand. -/
theorem c8_rest_pose_fingertips (s : HandShape) :
    ((Hands.of_shape s).get_fingertip_coords true HandPosition.default_position
      = ⟨((s.thumb_root_position.1 : ℝ), (s.thumb_root_position.2 : ℝ) + (s.thumb_length : ℝ)),
         ((s.index_root_position.1 : ℝ), (s.index_root_position.2 : ℝ) + (s.index_length : ℝ)),
         ((s.middle_root_position.1 : ℝ), (s.middle_root_position.2 : ℝ) + (s.middle_length : ℝ)),
         ((s.ring_root_position.1 : ℝ), (s.ring_root_position.2 : ℝ) + (s.ring_length : ℝ)),
         ((s.pinky_root_position.1 : ℝ), (s.pinky_root_position.2 : ℝ) + (s.pinky_length : ℝ))⟩)
    ∧ ((Hands.of_shape s).get_fingertip_coords false HandPosition.default_position
      = ⟨(-(s.thumb_root_position.1 : ℝ), (s.thumb_root_position.2 : ℝ) + (s.thumb_length : ℝ)),
         (-(s.index_root_position.1 : ℝ), (s.index_root_position.2 : ℝ) + (s.index_length : ℝ)),
         (-(s.middle_root_position.1 : ℝ), (s.middle_root_position.2 : ℝ) + (s.middle_length : ℝ)),
         (-(s.ring_root_position.1 : ℝ), (s.ring_root_position.2 : ℝ) + (s.ring_length : ℝ)),
         (-(s.pinky_root_position.1 : ℝ), (s.pinky_root_position.2 : ℝ) + (s.pinky_length : ℝ))⟩) := by
  constructor
  · simp [Hands.get_fingertip_coords, Hands.of_shape, HandPosition.default_position,
      tip_pre_rotation_rest, rotate_and_mirror_zero]
  · simp [Hands.get_fingertip_coords, Hands.of_shape, HandPosition.default_position,
      tip_pre_rotation_rest, rotate_and_mirror_zero]

/-- Ninety degrees converts to half pi radians. -/
theorem radians_ninety : radians 90 = Real.pi / 2 := by
  rw [radians]
  ring

/-- A concrete shape whose thumb root is at the wrist center and whose
thumb has length 1, default otherwise. -/
def unit_thumb_shape : HandShape := { default_hand_shape with
  thumb_root_position := (0, 0)
  thumb_length := 1 }

/-- The default pose with the wrist rotated 90 degrees. -/
def right_angle_pose : HandPosition := { HandPosition.default_position with
  wrist_rotation := 90 }

/-- C1: the wrist-rotation step of the fingertip computation does not
implement the standard 2D rotation on the pre-rotation coordinates: at a
wrist rotation of 90 degrees, the thumb tip whose pre-rotation position
is (0, 1) is returned as (-1, -1) because the already-rotated x value is
reused when computing y, whereas the rotation formula of the claim
yields (-1, 0). -/
theorem c1_wrist_rotation_reuses_rotated_x :
    ((Hands.of_shape unit_thumb_shape).get_fingertip_coords true right_angle_pose).thumb
      = ((-1 : ℝ), (-1 : ℝ))
    ∧ spec_wrist_rotate 90 (tip_pre_rotation (0, 0) 1 0 1) = ((-1 : ℝ), (0 : ℝ))
    ∧ (((-1 : ℝ), (-1 : ℝ)) : ℝ × ℝ) ≠ (((-1 : ℝ), (0 : ℝ)) : ℝ × ℝ) := by
  refine ⟨?_, ?_, ?_⟩
  · simp [Hands.get_fingertip_coords, Hands.of_shape, unit_thumb_shape,
      right_angle_pose, HandPosition.default_position, default_hand_shape,
      tip_pre_rotation, rotate_and_mirror, radians_ninety, radians_zero,
      Real.sin_pi_div_two, Real.cos_pi_div_two]
  · simp [spec_wrist_rotate, tip_pre_rotation, radians_ninety, radians_zero,
      Real.sin_pi_div_two, Real.cos_pi_div_two]
  · intro h
    have h2 := congrArg Prod.snd h
    norm_num at h2

/-- A concrete root bone named `p` whose offset from the world origin is
(5, 0). -/
def bone_parent5 : Bone := .mk ("p") ⟨5, 0⟩ 1 0 none

/-- C4: `Bone.__init__` discards its parent argument, so a bone
constructed with a non-null parent still has a null `parent` attribute
and its world transform equals its own local transform (here a
translation by (3, 0)) instead of the parent's world transform composed
with the local transform (a translation by (8, 0)) as the claim
requires. -/
theorem c4_constructor_drops_parent :
    (bone_init ("c") ⟨3, 0⟩ 1 0 (some bone_parent5)).parent = none
    ∧ Bone.world_transform_spec (bone_init ("c") ⟨3, 0⟩ 1 0 (some bone_parent5))
        = Bone.local_transform_spec (bone_init ("c") ⟨3, 0⟩ 1 0 (some bone_parent5))
    ∧ Bone.world_transform_spec (bone_init ("c") ⟨3, 0⟩ 1 0 (some bone_parent5))
        ≠ m3mul (Bone.world_transform_spec bone_parent5)
            (Bone.local_transform_spec (bone_init ("c") ⟨3, 0⟩ 1 0 (some bone_parent5))) := by
  refine ⟨rfl, rfl, ?_⟩
  intro h
  have h02 := congrArg Mat3.m02 h
  simp [Bone.world_transform_spec, Bone.local_transform_spec, bone_init,
    bone_parent5, m3mul, Transform2dHomogeneous.new_translation_matrix,
    Transform2dHomogeneous.new_rotation_matrix, Bone.pos_offset,
    Bone.rotation_rad] at h02

end GeneticKeyboard
